import Mathlib

/-!
Shallow embedding of `src/components/Modal/Modal.tsx`.

The source file contains two revisions of a React `Modal` component wrapping
a native `<dialog>` element:

* Variant A (lines 235-314): props include `returnValue` and `animateClass`;
  `closeModal` calls `dialogRef.current?.close` with the template-literal string of `returnValue`;
  `handleClose` either closes immediately (no `animateClass`) or registers an
  `animationend` listener (`closeAndCleanup`) and adds the animation class;
  a `useEffect` with deps `[showModal, handleClose]` opens the dialog when
  `showModal` is true and the dialog is not open, and returns `handleClose`
  as its cleanup.

* Variant B (lines 490-544): function-child variant without animation; a
  `useEffect` with dep `[showModal]` opens the dialog (no cleanup), and
  `handleClose` closes only when the dialog is open.

The embedding models the native dialog surface faithfully to the HTML
standard where the component relies on it: `close()` on a non-open dialog is
a no-op and fires no event; `classList.add` is idempotent; `addEventListener`
with a freshly created closure always registers a new listener (distinct
function identity); an `animationend` dispatch runs the listeners registered
at dispatch time in order, skipping any listener that was removed by an
earlier one; the ESC key fires `cancel` and then (default not prevented)
closes the dialog, which fires `close`.

Observable behaviour is recorded in an event log (`Ev`): native `showModal`
calls, invocations of native `close` (`closeInvoked`), effective closes
(`closeEff`), and the caller-supplied `onClose` / `onCancel` handler
invocations.
-/

namespace ModalSpec

/-- Observable events of the component/dialog system. -/
inductive Ev where
  | showCall : Ev
  | closeInvoked : String → Ev
  | closeEff : String → Ev
  | onCloseEv : String → Ev
  | onCancelEv : Ev
deriving DecidableEq

/-- An `animationend` listener registered by `handleClose` (variant A).
Each invocation of `handleClose` creates a fresh `closeAndCleanup` closure,
so listeners are distinguished by an allocation id; the closure captures the
stringified `returnValue` and the `animateClass` in scope at creation. -/
structure Listener where
  id : Nat
  rv : String
  ac : String
deriving DecidableEq

/-- The native dialog surface: `open` flag, `returnValue`, `classList`
contents, and the currently registered `animationend` listeners. -/
structure Dialog where
  isOpen : Bool
  retVal : String
  classes : List String
  listeners : List Listener
deriving DecidableEq

/-- Component-side state: the ref to the dialog (`none` = not mounted),
a fresh-id counter for listener closures, and the event log. -/
structure MState where
  dialog : Option Dialog
  nextId : Nat
  log : List Ev
deriving DecidableEq

/-- Props of variant A that the lifecycle logic reads. -/
structure PropsA where
  returnValue : Option String
  animateClass : Option String
deriving DecidableEq

/-- Props of variant B that the lifecycle logic reads. -/
structure PropsB where
  returnValue : Option String
deriving DecidableEq

/-- JavaScript template-literal stringification of a possibly
absent string: `undefined` stringifies to the literal string "undefined". -/
def tmpl : Option String → String
  | none => "undefined"
  | some s => s

/-- Native `dialog.close`: closes and fires the `close` event (invoking
the `onClose` handler with the final `returnValue`) only when the dialog is
open; on a non-open dialog it does nothing. Returns the updated dialog and
the events fired. -/
def dialogClose (rv : String) (d : Dialog) : Dialog × List Ev :=
  if d.isOpen then
    ({ d with isOpen := false, retVal := rv }, [Ev.closeEff rv, Ev.onCloseEv rv])
  else (d, [])

/-- Semantics of `classList.add`: idempotent token insertion. -/
def classAdd (c : String) (l : List String) : List String :=
  if c ∈ l then l else l ++ [c]

/-- Semantics of `classList.remove`: removes the token. -/
def classRemove (c : String) (l : List String) : List String :=
  l.filter (fun x => x ≠ c)

/-- Semantics of `removeEventListener`: removal by closure identity (the
allocation id). -/
def removeListenerById (i : Nat) (ls : List Listener) : List Listener :=
  ls.filter (fun x => x.id ≠ i)

/-- Variant A `closeModal`: calls the native close with the template-literal
string of `returnValue`, guarded by optional chaining when the ref is unset. -/
def closeModal (p : PropsA) (s : MState) : MState :=
  match s.dialog with
  | none => s
  | some d =>
      let r := dialogClose (tmpl p.returnValue) d
      { s with dialog := some r.1
               log := s.log ++ [Ev.closeInvoked (tmpl p.returnValue)] ++ r.2 }

/-- Variant A `handleClose`: with no `animateClass` it calls `closeModal`;
otherwise it registers a fresh `closeAndCleanup` closure as an
`animationend` listener and adds the animation class (idempotently, per
`classList.add` semantics). Both dialog operations are `?.`-guarded. -/
def handleClose (p : PropsA) (s : MState) : MState :=
  match p.animateClass with
  | none => closeModal p s
  | some ac =>
      match s.dialog with
      | none => s
      | some d =>
          { s with
              dialog := some { d with
                listeners := d.listeners ++ [⟨s.nextId, tmpl p.returnValue, ac⟩]
                classes := classAdd ac d.classes }
              nextId := s.nextId + 1 }

/-- One `closeAndCleanup` closure running on `animationend`: it calls the
captured `closeModal` (close with the captured stringified `returnValue`),
removes the captured animation class, and deregisters itself. -/
def runListener (l : Listener) (d : Dialog) : Dialog × List Ev :=
  let r := dialogClose l.rv d
  ({ r.1 with classes := classRemove l.ac r.1.classes
              listeners := removeListenerById l.id r.1.listeners },
   [Ev.closeInvoked l.rv] ++ r.2)

/-- Dispatch of an `animationend` event to a snapshot of listeners: each
listener runs only if it is still registered when its turn comes. -/
def runListeners : List Listener → Dialog → Dialog × List Ev
  | [], d => (d, [])
  | l :: ls, d =>
      if l ∈ d.listeners then
        let r := runListener l d
        let rest := runListeners ls r.1
        (rest.1, r.2 ++ rest.2)
      else
        runListeners ls d

/-- The `animationend` event firing on the dialog surface. -/
def fireAnimationEnd (s : MState) : MState :=
  match s.dialog with
  | none => s
  | some d =>
      let r := runListeners d.listeners d
      { s with dialog := some r.1, log := s.log ++ r.2 }

/-- Body of variant A's effect: when `showModal` is true, call the native
`showModal()` unless the dialog is already open (both accesses
`?.`-guarded); the effect registers `handleClose` as cleanup exactly when
`showModal` is true. Returns the new state and whether a cleanup is
registered. -/
def effectBody (b : Bool) (s : MState) : MState × Bool :=
  if b then
    match s.dialog with
    | none => (s, true)
    | some d =>
        if d.isOpen then (s, true)
        else ({ s with dialog := some { d with isOpen := true }
                       log := s.log ++ [Ev.showCall] }, true)
  else (s, false)

/-- React-side render state for variant A: component state, previous
`showModal` dep value, and whether an effect cleanup is pending. -/
structure RState where
  st : MState
  prev : Bool
  cleanup : Bool
deriving DecidableEq

/-- One commit of variant A. The effect deps are `[showModal, handleClose]`
and `handleClose` is memoized on `[animateClass, closeModal]` with
`closeModal` memoized on `[returnValue]`: the effect re-runs exactly when
the flag or one of those props changed. On a re-run, the pending cleanup
(the `handleClose` captured by the previous render, i.e. `pOld`) runs first,
then the body with the new flag. -/
def commit (pOld pNew : PropsA) (b : Bool) (r : RState) : RState :=
  if b = r.prev ∧ pOld = pNew then r
  else
    let s1 := if r.cleanup then handleClose pOld r.st else r.st
    let r2 := effectBody b s1
    ⟨r2.1, b, r2.2⟩

/-- Unmount of variant A. React detaches host refs of a deleted tree (sets
`dialogRef.current` to null) before the passive effect cleanups run, so the
pending cleanup (`handleClose` with the props of the last render) executes
against a null ref. Returns the component state after the cleanup together
with the detached DOM node, which keeps whatever listeners were registered
on it (nothing on the unmount path deregisters them). -/
def unmount (p : PropsA) (r : RState) : MState × Option Dialog :=
  let s1 : MState := { r.st with dialog := none }
  let s2 := if r.cleanup then handleClose p s1 else s1
  (s2, r.st.dialog)

/-- A sequence of renders of variant A with fixed props, driven by a list of
`showModal` values. -/
def runFlags (p : PropsA) : List Bool → RState → RState
  | [], r => r
  | b :: bs, r => runFlags p bs (commit p p b r)

/-- Variant B `handleClose`: close (with the stringified `returnValue`) only
when the ref is set and the dialog is open. -/
def handleCloseB (p : PropsB) (s : MState) : MState :=
  match s.dialog with
  | none => s
  | some d =>
      if d.isOpen then
        let r := dialogClose (tmpl p.returnValue) d
        { s with dialog := some r.1
                 log := s.log ++ [Ev.closeInvoked (tmpl p.returnValue)] ++ r.2 }
      else s

/-- Body of variant B's effect (deps `[showModal]`, no cleanup): open the
dialog when the ref is set, the dialog is not open, and `showModal` is
true. -/
def effectBodyB (b : Bool) (s : MState) : MState :=
  match s.dialog with
  | none => s
  | some d =>
      if d.isOpen = false ∧ b = true then
        { s with dialog := some { d with isOpen := true }
                 log := s.log ++ [Ev.showCall] }
      else s

/-- React-side render state for variant B. -/
structure RStateB where
  st : MState
  prev : Bool
deriving DecidableEq

/-- One commit of variant B: the effect re-runs exactly when `showModal`
changed. -/
def commitB (b : Bool) (r : RStateB) : RStateB :=
  if b = r.prev then r else ⟨effectBodyB b r.st, b⟩

/-- A sequence of renders of variant B driven by a list of `showModal`
values. -/
def runFlagsB : List Bool → RStateB → RStateB
  | [], r => r
  | b :: bs, r => runFlagsB bs (commitB b r)

/-- The native ESC-key gesture on an open dialog: the platform fires the
`cancel` event (invoking the wired `onCancel` handler), then, the default
not being prevented, closes the dialog, which fires `close` (invoking the
wired `onClose` handler with the current `returnValue`). On a non-open or
unmounted dialog nothing happens. -/
def escGesture (s : MState) : MState :=
  match s.dialog with
  | none => s
  | some d =>
      if d.isOpen then
        { s with dialog := some { d with isOpen := false }
                 log := s.log ++ [Ev.onCancelEv, Ev.closeEff d.retVal, Ev.onCloseEv d.retVal] }
      else s

/-- Event classifiers for counting. -/
def isShow : Ev → Bool
  | Ev.showCall => true
  | _ => false

def isCloseEff : Ev → Bool
  | Ev.closeEff _ => true
  | _ => false

def isOnClose : Ev → Bool
  | Ev.onCloseEv _ => true
  | _ => false

def isOnCancel : Ev → Bool
  | Ev.onCancelEv => true
  | _ => false

/-- Number of events of a given kind in a log. -/
def countP (f : Ev → Bool) (l : List Ev) : Nat := (l.filter f).length

def countShow (l : List Ev) : Nat := countP isShow l
def countCloseEff (l : List Ev) : Nat := countP isCloseEff l
def countOnClose (l : List Ev) : Nat := countP isOnClose l
def countOnCancel (l : List Ev) : Nat := countP isOnCancel l

/-- Number of false→true edges in a flag sequence, given the previous
value. -/
def risingEdges : Bool → List Bool → Nat
  | _, [] => 0
  | prev, b :: bs => (if b && !prev then 1 else 0) + risingEdges b bs

/-- Concrete fixtures. -/
def rvOk : String := "ok"
def acClose : String := "close"
def undefStr : String := "undefined"

def dOpen : Dialog := ⟨true, "", [], []⟩
def sOpen : MState := ⟨some dOpen, 0, []⟩
def pAnim : PropsA := ⟨some rvOk, some acClose⟩

/-! Helper lemmas: event counting. -/

theorem countP_nil (f : Ev → Bool) : countP f [] = 0 := rfl

theorem countP_cons (f : Ev → Bool) (e : Ev) (l : List Ev) :
    countP f (e :: l) = (if f e = true then 1 else 0) + countP f l := by
  simp only [countP, List.filter_cons]
  split
  · simp only [List.length_cons]
    omega
  · omega

theorem countP_append (f : Ev → Bool) (a b : List Ev) :
    countP f (a ++ b) = countP f a + countP f b := by
  simp [countP]

theorem dialogClose_countP (f : Ev → Bool) (hf2 : ∀ v, f (Ev.closeEff v) = false)
    (hf3 : ∀ v, f (Ev.onCloseEv v) = false) (rv : String) (d : Dialog) :
    countP f (dialogClose rv d).2 = 0 := by
  unfold dialogClose
  split <;> simp [countP_cons, countP_nil, hf2, hf3]

theorem closeModal_countP (f : Ev → Bool) (hf1 : ∀ v, f (Ev.closeInvoked v) = false)
    (hf2 : ∀ v, f (Ev.closeEff v) = false) (hf3 : ∀ v, f (Ev.onCloseEv v) = false)
    (p : PropsA) (s : MState) :
    countP f ((closeModal p s).log) = countP f s.log := by
  rcases hs : s.dialog with _ | d
  · simp [closeModal, hs]
  · simp [closeModal, hs, countP_append, countP_cons, countP_nil, hf1,
      dialogClose_countP f hf2 hf3]

theorem handleClose_countP (f : Ev → Bool) (hf1 : ∀ v, f (Ev.closeInvoked v) = false)
    (hf2 : ∀ v, f (Ev.closeEff v) = false) (hf3 : ∀ v, f (Ev.onCloseEv v) = false)
    (p : PropsA) (s : MState) :
    countP f ((handleClose p s).log) = countP f s.log := by
  rcases hp : p.animateClass with _ | ac
  · rw [handleClose, hp]
    exact closeModal_countP f hf1 hf2 hf3 p s
  · rcases hs : s.dialog with _ | d
    · simp [handleClose, hp, hs]
    · simp [handleClose, hp, hs]

theorem runListeners_countP (f : Ev → Bool) (hf1 : ∀ v, f (Ev.closeInvoked v) = false)
    (hf2 : ∀ v, f (Ev.closeEff v) = false) (hf3 : ∀ v, f (Ev.onCloseEv v) = false) :
    ∀ (ls : List Listener) (d : Dialog), countP f (runListeners ls d).2 = 0 := by
  intro ls
  induction ls with
  | nil => intro d; rfl
  | cons l rest ih =>
      intro d
      by_cases hm : l ∈ d.listeners
      · simp [runListeners, hm, runListener, countP_append, countP_cons, countP_nil, hf1,
          dialogClose_countP f hf2 hf3, ih]
      · simp [runListeners, hm, ih]

theorem fireAnimationEnd_countP (f : Ev → Bool) (hf1 : ∀ v, f (Ev.closeInvoked v) = false)
    (hf2 : ∀ v, f (Ev.closeEff v) = false) (hf3 : ∀ v, f (Ev.onCloseEv v) = false)
    (s : MState) :
    countP f ((fireAnimationEnd s).log) = countP f s.log := by
  rcases hs : s.dialog with _ | d
  · simp [fireAnimationEnd, hs]
  · simp [fireAnimationEnd, hs, countP_append, runListeners_countP f hf1 hf2 hf3]

theorem handleCloseB_countP (f : Ev → Bool) (hf1 : ∀ v, f (Ev.closeInvoked v) = false)
    (hf2 : ∀ v, f (Ev.closeEff v) = false) (hf3 : ∀ v, f (Ev.onCloseEv v) = false)
    (q : PropsB) (s : MState) :
    countP f ((handleCloseB q s).log) = countP f s.log := by
  rcases hs : s.dialog with _ | d
  · simp [handleCloseB, hs]
  · by_cases ho : d.isOpen = true
    · simp [handleCloseB, hs, ho, countP_append, countP_cons, countP_nil, hf1,
        dialogClose_countP f hf2 hf3]
    · simp [handleCloseB, hs, ho]

theorem isShow_hf1 : ∀ v, isShow (Ev.closeInvoked v) = false := fun _ => rfl
theorem isShow_hf2 : ∀ v, isShow (Ev.closeEff v) = false := fun _ => rfl
theorem isShow_hf3 : ∀ v, isShow (Ev.onCloseEv v) = false := fun _ => rfl
theorem isOnCancel_hf1 : ∀ v, isOnCancel (Ev.closeInvoked v) = false := fun _ => rfl
theorem isOnCancel_hf2 : ∀ v, isOnCancel (Ev.closeEff v) = false := fun _ => rfl
theorem isOnCancel_hf3 : ∀ v, isOnCancel (Ev.onCloseEv v) = false := fun _ => rfl

/-! Helper lemmas: at most one native open call per rising edge of the flag. -/

theorem effectBody_countShow_le (b : Bool) (s : MState) :
    countShow ((effectBody b s).1.log) ≤ countShow s.log + (if b then 1 else 0) := by
  cases b with
  | false => simp [effectBody]
  | true =>
      rcases hs : s.dialog with _ | d
      · simp [effectBody, hs]
      · by_cases ho : d.isOpen = true
        · simp [effectBody, hs, ho]
        · simp [effectBody, hs, ho, countShow, countP_append, countP_cons, countP_nil, isShow]

theorem commit_countShow_le (p : PropsA) (b : Bool) (r : RState) :
    countShow ((commit p p b r).st.log) ≤ countShow r.st.log + (if b && !r.prev then 1 else 0) := by
  have h1 : countShow ((if r.cleanup then handleClose p r.st else r.st).log) =
      countShow r.st.log := by
    by_cases hcl : r.cleanup = true
    · simp only [hcl, if_true]
      exact handleClose_countP isShow isShow_hf1 isShow_hf2 isShow_hf3 p r.st
    · simp [hcl]
  simp only [commit]
  split
  · exact Nat.le_add_right _ _
  · rename_i h
    have hc : ¬ b = r.prev := fun hb => h ⟨hb, trivial⟩
    have h3 : (if b then 1 else 0) ≤ (if b && !r.prev then 1 else 0) := by
      cases b with
      | false => simp
      | true =>
          cases hp : r.prev with
          | false => simp
          | true => exact absurd (hp ▸ rfl) hc
    exact le_trans (effectBody_countShow_le b _) (by rw [h1]; exact Nat.add_le_add_left h3 _)

theorem commit_prev (p : PropsA) (b : Bool) (r : RState) : (commit p p b r).prev = b := by
  simp only [commit]
  split
  · rename_i h
    exact h.1.symm
  · rfl

theorem runFlags_countShow_le (p : PropsA) :
    ∀ (bs : List Bool) (r : RState),
      countShow ((runFlags p bs r).st.log) ≤ countShow r.st.log + risingEdges r.prev bs := by
  intro bs
  induction bs with
  | nil => intro r; simp [runFlags, risingEdges]
  | cons b rest ih =>
      intro r
      have h1 := commit_countShow_le p b r
      have h2 := ih (commit p p b r)
      rw [commit_prev] at h2
      simp only [runFlags, risingEdges]
      omega

theorem effectBodyB_countShow_le (b : Bool) (s : MState) :
    countShow ((effectBodyB b s).log) ≤ countShow s.log + (if b then 1 else 0) := by
  rcases hs : s.dialog with _ | d
  · simp [effectBodyB, hs]
  · by_cases hcond : d.isOpen = false ∧ b = true
    · obtain ⟨h1, h2⟩ := hcond
      subst h2
      simp [effectBodyB, hs, h1, countShow, countP_append, countP_cons, countP_nil, isShow]
    · have hx : countShow ((effectBodyB b s).log) = countShow s.log := by
        simp [effectBodyB, hs, hcond]
      omega

theorem commitB_countShow_le (b : Bool) (r : RStateB) :
    countShow ((commitB b r).st.log) ≤ countShow r.st.log + (if b && !r.prev then 1 else 0) := by
  simp only [commitB]
  split
  · exact Nat.le_add_right _ _
  · rename_i hc
    have h3 : (if b then 1 else 0) ≤ (if b && !r.prev then 1 else 0) := by
      cases b with
      | false => simp
      | true =>
          cases hp : r.prev with
          | false => simp
          | true => exact absurd (hp ▸ rfl) hc
    exact le_trans (effectBodyB_countShow_le b _) (Nat.add_le_add_left h3 _)

theorem commitB_prev (b : Bool) (r : RStateB) : (commitB b r).prev = b := by
  simp only [commitB]
  split
  · rename_i h
    exact h.symm
  · rfl

theorem runFlagsB_countShow_le :
    ∀ (bs : List Bool) (r : RStateB),
      countShow ((runFlagsB bs r).st.log) ≤ countShow r.st.log + risingEdges r.prev bs := by
  intro bs
  induction bs with
  | nil => intro r; simp [runFlagsB, risingEdges]
  | cons b rest ih =>
      intro r
      have h1 := commitB_countShow_le b r
      have h2 := ih (commitB b r)
      rw [commitB_prev] at h2
      simp only [runFlagsB, risingEdges]
      omega

/-! Claim theorems. -/

/-- C1, counterexample. The claim states that a further call of
`requestClose`/`handleClose` while a close orchestration is pending
"registers no second animation-completion listener". On the code this is
false: each invocation of `handleClose` creates a fresh `closeAndCleanup`
closure and `addEventListener` registers it, so after a first request (one
listener pending) a second request leaves two registered `animationend`
listeners. -/
theorem C1_counterexample :
    (handleClose pAnim sOpen).dialog.map (fun d => d.listeners.length) = some 1 ∧
    (handleClose pAnim (handleClose pAnim sOpen)).dialog.map
      (fun d => d.listeners.length) = some 2 := by
  constructor <;> rfl

/-- C1, amended. Calling `handleClose` a second time while an
animation-wait is pending registers a second (distinct) `animationend`
listener, but the animation class is attached only once (`classList.add` is
idempotent), and the whole sequence still results in exactly one effective
native close and exactly one `onClose` invocation: on `animationend` the
first listener closes the surface and the second listener's close call is a
no-op on the already-closed surface (the log gains exactly one `closeEff`
and one `onCloseEv`, though two `closeInvoked`). -/
theorem C1_theorem (orv : Option String) (ac rv0 : String) (L : List Ev) :
    handleClose ⟨orv, some ac⟩ (handleClose ⟨orv, some ac⟩ ⟨some ⟨true, rv0, [], []⟩, 0, L⟩) =
      ⟨some ⟨true, rv0, [ac], [⟨0, tmpl orv, ac⟩, ⟨1, tmpl orv, ac⟩]⟩, 2, L⟩ ∧
    fireAnimationEnd
        (handleClose ⟨orv, some ac⟩ (handleClose ⟨orv, some ac⟩ ⟨some ⟨true, rv0, [], []⟩, 0, L⟩)) =
      ⟨some ⟨false, tmpl orv, [], []⟩, 2,
        L ++ [Ev.closeInvoked (tmpl orv), Ev.closeEff (tmpl orv), Ev.onCloseEv (tmpl orv),
              Ev.closeInvoked (tmpl orv)]⟩ := by
  constructor
  · simp [handleClose, classAdd]
  · simp [handleClose, classAdd, fireAnimationEnd, runListeners, runListener, dialogClose,
      classRemove, removeListenerById]

/-- C2. For a close request with an animation class configured, on an open
surface with no orchestration pending: the class is attached at the request
and the surface stays open with the class present and one registered
listener, with no close event fired, until the animation-completion signal;
when `animationend` fires, the native close runs (exactly one `closeEff`
and one `onCloseEv`, after the signal and never before, with the captured
stringified `returnValue`), the class is removed, and the listener is
deregistered, so nothing is left attached on the closed surface. -/
theorem C2_theorem (orv : Option String) (ac rv0 : String) (L : List Ev) :
    handleClose ⟨orv, some ac⟩ ⟨some ⟨true, rv0, [], []⟩, 0, L⟩ =
      ⟨some ⟨true, rv0, [ac], [⟨0, tmpl orv, ac⟩]⟩, 1, L⟩ ∧
    fireAnimationEnd (handleClose ⟨orv, some ac⟩ ⟨some ⟨true, rv0, [], []⟩, 0, L⟩) =
      ⟨some ⟨false, tmpl orv, [], []⟩, 1,
        L ++ [Ev.closeInvoked (tmpl orv), Ev.closeEff (tmpl orv), Ev.onCloseEv (tmpl orv)]⟩ := by
  constructor
  · simp [handleClose, classAdd]
  · simp [handleClose, classAdd, fireAnimationEnd, runListeners, runListener, dialogClose,
      classRemove, removeListenerById]

/-- C3. A close request on an open surface while no animation class is
configured invokes the native close immediately and exactly once, with the
stringified configured `returnValue`, and `onClose` fires exactly once with
that value — in variant A (`handleClose` with `animateClass` absent) and in
variant B (`handleCloseB`) alike: the log is extended by exactly one
`closeInvoked`, one `closeEff` and one `onCloseEv`, all carrying
`tmpl returnValue`, in the same synchronous step. -/
theorem C3_theorem (orv : Option String) (rv0 : String) (cs : List String)
    (ls : List Listener) (n : Nat) (L : List Ev) :
    handleClose ⟨orv, none⟩ ⟨some ⟨true, rv0, cs, ls⟩, n, L⟩ =
      ⟨some ⟨false, tmpl orv, cs, ls⟩, n,
        L ++ [Ev.closeInvoked (tmpl orv), Ev.closeEff (tmpl orv), Ev.onCloseEv (tmpl orv)]⟩ ∧
    handleCloseB ⟨orv⟩ ⟨some ⟨true, rv0, cs, ls⟩, n, L⟩ =
      ⟨some ⟨false, tmpl orv, cs, ls⟩, n,
        L ++ [Ev.closeInvoked (tmpl orv), Ev.closeEff (tmpl orv), Ev.onCloseEv (tmpl orv)]⟩ := by
  constructor
  · simp [handleClose, closeModal, dialogClose]
  · simp [handleCloseB, dialogClose]

/-- C4. For every sequence of `showModal` values driven through the render
loop of either variant, starting from a mounted closed surface, the number
of native show-as-modal calls is at most the number of false-to-true edges
of the flag: the open effect is guarded by the `open` attribute, so a
redundant true transition while the surface is open is a no-op and the
surface opens at most once per contiguous run of true values. -/
theorem C4_theorem (p : PropsA) (flags : List Bool) (rv0 : String) (n : Nat) (L : List Ev) :
    countShow ((runFlags p flags ⟨⟨some ⟨false, rv0, [], []⟩, n, L⟩, false, false⟩).st.log) ≤
      countShow L + risingEdges false flags ∧
    countShow ((runFlagsB flags ⟨⟨some ⟨false, rv0, [], []⟩, n, L⟩, false⟩).st.log) ≤
      countShow L + risingEdges false flags :=
  ⟨runFlags_countShow_le p flags _, runFlagsB_countShow_le flags _⟩

/-- C5. A true `showModal` transition opens the surface in both variants
(first and fourth conjuncts). A transition to false closes the surface
directly when no animation class is configured (variant A, whose effect
cleanup invokes `handleClose`: second conjunct), while in the function-child
variant B the Synchronizer takes no direct action on a false flag (third
conjunct) and closing happens via the child-invoked close callback
`handleCloseB` (fifth conjunct). -/
theorem C5_theorem (orv : Option String) (oac : Option String) (rv0 : String) (n : Nat)
    (L : List Ev) :
    commit ⟨orv, oac⟩ ⟨orv, oac⟩ true ⟨⟨some ⟨false, rv0, [], []⟩, n, L⟩, false, false⟩ =
      ⟨⟨some ⟨true, rv0, [], []⟩, n, L ++ [Ev.showCall]⟩, true, true⟩ ∧
    commit ⟨orv, none⟩ ⟨orv, none⟩ false ⟨⟨some ⟨true, rv0, [], []⟩, n, L⟩, true, true⟩ =
      ⟨⟨some ⟨false, tmpl orv, [], []⟩, n,
        L ++ [Ev.closeInvoked (tmpl orv), Ev.closeEff (tmpl orv), Ev.onCloseEv (tmpl orv)]⟩,
       false, false⟩ ∧
    commitB false ⟨⟨some ⟨true, rv0, [], []⟩, n, L⟩, true⟩ =
      ⟨⟨some ⟨true, rv0, [], []⟩, n, L⟩, false⟩ ∧
    commitB true ⟨⟨some ⟨false, rv0, [], []⟩, n, L⟩, false⟩ =
      ⟨⟨some ⟨true, rv0, [], []⟩, n, L ++ [Ev.showCall]⟩, true⟩ ∧
    handleCloseB ⟨orv⟩ ⟨some ⟨true, rv0, [], []⟩, n, L⟩ =
      ⟨some ⟨false, tmpl orv, [], []⟩, n,
        L ++ [Ev.closeInvoked (tmpl orv), Ev.closeEff (tmpl orv), Ev.onCloseEv (tmpl orv)]⟩ := by
  refine ⟨?_, ?_, ?_, ?_, ?_⟩
  · simp [commit, effectBody]
  · simp [commit, handleClose, closeModal, dialogClose, effectBody]
  · simp [commitB, effectBodyB]
  · simp [commitB, effectBodyB]
  · simp [handleCloseB, dialogClose]

/-- C6. For an ESC-key gesture on an open surface, the `cancel` handler runs
strictly before the `close` handler of the same gesture: the log gains
`onCancelEv` before `onCloseEv` (first conjunct). For closes triggered by
the close button of the function-child variant (`handleCloseB`) or any other
non-ESC close path (`handleClose`, the animation-completion dispatch),
`onCancel` is never invoked (remaining conjuncts). -/
theorem C6_theorem (p : PropsA) (q : PropsB) (s : MState) (rv0 : String) (cs : List String)
    (ls : List Listener) (n : Nat) (L : List Ev) :
    escGesture ⟨some ⟨true, rv0, cs, ls⟩, n, L⟩ =
      ⟨some ⟨false, rv0, cs, ls⟩, n, L ++ [Ev.onCancelEv, Ev.closeEff rv0, Ev.onCloseEv rv0]⟩ ∧
    countOnCancel ((handleCloseB q s).log) = countOnCancel s.log ∧
    countOnCancel ((handleClose p s).log) = countOnCancel s.log ∧
    countOnCancel ((fireAnimationEnd s).log) = countOnCancel s.log := by
  refine ⟨by simp [escGesture], ?_, ?_, ?_⟩
  · exact handleCloseB_countP isOnCancel isOnCancel_hf1 isOnCancel_hf2 isOnCancel_hf3 q s
  · exact handleClose_countP isOnCancel isOnCancel_hf1 isOnCancel_hf2 isOnCancel_hf3 p s
  · exact fireAnimationEnd_countP isOnCancel isOnCancel_hf1 isOnCancel_hf2 isOnCancel_hf3 s

/-- C7, code evaluation at the failing input. The claim (and the spec)
require that unmounting while an animation-wait is pending deregisters the
pending listener so that no registered listener survives the unmount. The
code's only unmount-time action is the effect cleanup `handleClose`, which
runs after React has detached the host ref and therefore no-ops (the
component state shows no new event and no new listener allocation); nothing
ever calls `removeEventListener` on this path, so after one pending close
request (`handleClose pAnim sOpen`) followed by unmount, the one pending
`animationend` listener is still registered on the detached surface. -/
theorem C7_theorem :
    (unmount pAnim ⟨handleClose pAnim sOpen, true, true⟩).1 = ⟨none, 1, []⟩ ∧
    (unmount pAnim ⟨handleClose pAnim sOpen, true, true⟩).2.map
      (fun d => d.listeners.length) = some 1 := by
  constructor <;> rfl

/-- C8. Every operation invoked while the native surface reference is
missing (`dialog = none`: not yet mounted) is guarded — by optional
chaining in variant A and by an explicit existence check in variant B — and
silently skipped: the component state is returned unchanged, no event is
logged, and no error path exists (all embedded operations are total). -/
theorem C8_theorem (p : PropsA) (q : PropsB) (b : Bool) (n : Nat) (L : List Ev) :
    closeModal p ⟨none, n, L⟩ = ⟨none, n, L⟩ ∧
    handleClose p ⟨none, n, L⟩ = ⟨none, n, L⟩ ∧
    effectBody b ⟨none, n, L⟩ = (⟨none, n, L⟩, b) ∧
    fireAnimationEnd ⟨none, n, L⟩ = ⟨none, n, L⟩ ∧
    handleCloseB q ⟨none, n, L⟩ = ⟨none, n, L⟩ ∧
    effectBodyB b ⟨none, n, L⟩ = ⟨none, n, L⟩ ∧
    escGesture ⟨none, n, L⟩ = ⟨none, n, L⟩ := by
  refine ⟨?_, ?_, ?_, ?_, ?_, ?_, ?_⟩
  · simp [closeModal]
  · cases p with
    | mk orv oac => cases oac <;> simp [handleClose, closeModal]
  · cases b <;> simp [effectBody]
  · simp [fireAnimationEnd]
  · simp [handleCloseB]
  · simp [effectBodyB]
  · simp [escGesture]

/-- C9. Both variants stringify the `returnValue` prop with a template
literal when calling the native close, so when no `returnValue` is
configured the native close receives the literal string "undefined"
(`undefStr`), which also becomes the surface's `returnValue` and the value
seen by `onClose` — not the platform-default empty string and not an
omitted argument. -/
theorem C9_theorem (oac : Option String) (rv0 : String) (cs : List String)
    (ls : List Listener) (n : Nat) (L : List Ev) :
    closeModal ⟨none, oac⟩ ⟨some ⟨true, rv0, cs, ls⟩, n, L⟩ =
      ⟨some ⟨false, undefStr, cs, ls⟩, n,
        L ++ [Ev.closeInvoked undefStr, Ev.closeEff undefStr, Ev.onCloseEv undefStr]⟩ ∧
    handleCloseB ⟨none⟩ ⟨some ⟨true, rv0, cs, ls⟩, n, L⟩ =
      ⟨some ⟨false, undefStr, cs, ls⟩, n,
        L ++ [Ev.closeInvoked undefStr, Ev.closeEff undefStr, Ev.onCloseEv undefStr]⟩ := by
  constructor
  · simp [closeModal, dialogClose, tmpl, undefStr]
  · simp [handleCloseB, dialogClose, tmpl, undefStr]

/-- C10. In the animated variant A, `handleClose` is a dependency of the
open effect (memoized on `animateClass` and on `closeModal`, itself memoized
on `returnValue`), so a commit in which `returnValue` or `animateClass`
changed while the dialog is open and `showModal` is held true re-runs the
effect: its cleanup invokes the old `handleClose`, starting the close
orchestration (class attached, listener registered) even though the flag
never went false; after the animation-completion signal the surface is
closed although `showModal` is still true — the open state is not preserved
under prop-only changes. -/
theorem C10_theorem (orv1 orv2 : Option String) (ac : String) (oac2 : Option String)
    (rv0 : String) (L : List Ev)
    (h : PropsA.mk orv1 (some ac) ≠ PropsA.mk orv2 oac2) :
    commit ⟨orv1, some ac⟩ ⟨orv2, oac2⟩ true ⟨⟨some ⟨true, rv0, [], []⟩, 0, L⟩, true, true⟩ =
      ⟨⟨some ⟨true, rv0, [ac], [⟨0, tmpl orv1, ac⟩]⟩, 1, L⟩, true, true⟩ ∧
    fireAnimationEnd (commit ⟨orv1, some ac⟩ ⟨orv2, oac2⟩ true
        ⟨⟨some ⟨true, rv0, [], []⟩, 0, L⟩, true, true⟩).st =
      ⟨some ⟨false, tmpl orv1, [], []⟩, 1,
        L ++ [Ev.closeInvoked (tmpl orv1), Ev.closeEff (tmpl orv1), Ev.onCloseEv (tmpl orv1)]⟩ := by
  constructor
  · simp [commit, h, handleClose, classAdd, effectBody]
  · simp [commit, h, handleClose, classAdd, effectBody, fireAnimationEnd, runListeners,
      runListener, dialogClose, classRemove, removeListenerById]

/-- C10, witness: the theorem applied at a concrete input — `returnValue`
changes from "ok" to absent while `animateClass` stays "close", the dialog
is open and `showModal` is held true. -/
theorem C10_witness :
    (PropsA.mk (some rvOk) (some acClose) ≠ PropsA.mk none (some acClose)) ∧
    (commit ⟨some rvOk, some acClose⟩ ⟨none, some acClose⟩ true
        ⟨⟨some ⟨true, rvOk, [], []⟩, 0, []⟩, true, true⟩ =
      ⟨⟨some ⟨true, rvOk, [acClose], [⟨0, tmpl (some rvOk), acClose⟩]⟩, 1, []⟩, true, true⟩ ∧
     fireAnimationEnd (commit ⟨some rvOk, some acClose⟩ ⟨none, some acClose⟩ true
        ⟨⟨some ⟨true, rvOk, [], []⟩, 0, []⟩, true, true⟩).st =
      ⟨some ⟨false, tmpl (some rvOk), [], []⟩, 1,
        [Ev.closeInvoked (tmpl (some rvOk)), Ev.closeEff (tmpl (some rvOk)),
         Ev.onCloseEv (tmpl (some rvOk))]⟩) :=
  ⟨by decide, C10_theorem (some rvOk) none acClose (some acClose) rvOk [] (by decide)⟩

end ModalSpec
